import Mathlib

/-!
Verification of the cost aggregation and classification engine of the
openshift-partner-labs-cost-estimator repository.

The development shallowly embeds the relevant Python sources:
  * `src/aws/cost/cost_categories.py`  (classification table)
  * `src/aws/cost/cost_aggregator.py`  (`CostAggregator.aggregate_costs` and helpers)
  * `src/aws/cost/pricing_service.py`  (per-resource cost calculators, the
    retry/batch executor and the error classifier)
  * `src/aws/main.py`                  (`_apply_cost_filters_and_sorting`)

Python floats are modelled as rationals (`ℚ`), Python dicts as insertion-ordered
association lists, `None` as `Option`, and the live pricing lookups (network
I/O) as an abstract rate oracle.
-/

/-! ### Python-style string and dict helpers -/

/-- Python `a or b` for an optional string `a` (both `None` and `""` are falsy). -/
def py_or (o : Option String) (d : String) : String :=
  match o with
  | none => d
  | some s => if s == "" then d else s

/-- Python `a or b` for a plain string `a` (`""` is falsy). -/
def str_or (s d : String) : String :=
  if s == "" then d else s

/-- Python truthiness of an optional string (`None` and `""` are falsy). -/
def truthy_str (o : Option String) : Bool :=
  match o with
  | none => false
  | some s => !(s == "")

/-- Does `cs` start with `ps`? (helper for the substring test). -/
def lead_match : List Char → List Char → Bool
  | [], _ => true
  | _ :: _, [] => false
  | p :: ps, c :: cs => p == c && lead_match ps cs

/-- Is `pat` a contiguous sublist of `s`? (helper for the substring test). -/
def sub_match (pat : List Char) : List Char → Bool
  | [] => lead_match pat []
  | c :: cs => lead_match pat (c :: cs) || sub_match pat cs

/-- Python `pat in s` on strings. -/
def str_contains (s pat : String) : Bool :=
  sub_match pat.data s.data

/-- Python `s.startswith(pat)`. -/
def str_starts_with (s pat : String) : Bool :=
  lead_match pat.data s.data

/-- Python `s.lower()` (ASCII case folding, which is all the source needs). -/
def str_lower (s : String) : String :=
  String.mk (s.data.map Char.toLower)

/-- One Python dict update `m[k] = m.get(k, 0) + v`, keeping insertion order:
the first occurrence of a key fixes its position, later additions accumulate. -/
def bump_key {K : Type} [BEq K] (m : List (K × ℚ)) (k : K) (v : ℚ) : List (K × ℚ) :=
  match m with
  | [] => [(k, v)]
  | (k', v') :: rest => if k' == k then (k', v' + v) :: rest else (k', v') :: bump_key rest k v

/-- Sum of the values of a dict, `sum(m.values())`. -/
def map_total {K : Type} (m : List (K × ℚ)) : ℚ :=
  (m.map Prod.snd).sum

/-! ### Classification table (`cost_categories.py`) -/

/-- `CostCategory` enum from `cost_categories.py`. -/
inductive CostCategory where
  | BILLABLE_COMPUTE
  | BILLABLE_STORAGE
  | BILLABLE_NETWORKING
  | BILLABLE_DATABASE
  | BILLABLE_LOAD_BALANCING
  | BILLABLE_DNS
  | FREE_NETWORKING
  | FREE_SECURITY
  | FREE_IAM
  | FREE_MANAGEMENT
  | UNKNOWN
deriving Repr, DecidableEq, BEq

/-- `CostPriority` enum from `cost_categories.py`. -/
inductive CostPriority where
  | HIGH
  | MEDIUM
  | LOW
  | FREE
  | UNKNOWN
deriving Repr, DecidableEq, BEq

/-- The `.value` string of a `CostCategory` member. -/
def category_value : CostCategory → String
  | .BILLABLE_COMPUTE => "billable_compute"
  | .BILLABLE_STORAGE => "billable_storage"
  | .BILLABLE_NETWORKING => "billable_networking"
  | .BILLABLE_DATABASE => "billable_database"
  | .BILLABLE_LOAD_BALANCING => "billable_load_balancing"
  | .BILLABLE_DNS => "billable_dns"
  | .FREE_NETWORKING => "free_networking"
  | .FREE_SECURITY => "free_security"
  | .FREE_IAM => "free_iam"
  | .FREE_MANAGEMENT => "free_management"
  | .UNKNOWN => "unknown"

/-- `CostClassifier.RESOURCE_COST_MAPPING`. -/
def resource_cost_mapping : List (String × CostCategory) :=
  [("instances", .BILLABLE_COMPUTE),
   ("lambda_functions", .BILLABLE_COMPUTE),
   ("volumes", .BILLABLE_STORAGE),
   ("s3_buckets", .BILLABLE_STORAGE),
   ("nat_gateways", .BILLABLE_NETWORKING),
   ("elastic_ips", .BILLABLE_NETWORKING),
   ("vpc_endpoints", .BILLABLE_NETWORKING),
   ("classic_elbs", .BILLABLE_LOAD_BALANCING),
   ("albs_nlbs", .BILLABLE_LOAD_BALANCING),
   ("target_groups", .FREE_NETWORKING),
   ("rds_instances", .BILLABLE_DATABASE),
   ("rds_clusters", .BILLABLE_DATABASE),
   ("route53_zones", .BILLABLE_DNS),
   ("route53_records", .BILLABLE_DNS),
   ("vpcs", .FREE_NETWORKING),
   ("subnets", .FREE_NETWORKING),
   ("route_tables", .FREE_NETWORKING),
   ("internet_gateways", .FREE_NETWORKING),
   ("network_interfaces", .FREE_NETWORKING),
   ("security_groups", .FREE_SECURITY),
   ("iam_roles", .FREE_IAM),
   ("iam_policies", .FREE_IAM),
   ("cloudformation_stacks", .FREE_MANAGEMENT),
   ("other_resources", .UNKNOWN)]

/-- `CostClassifier.COST_PRIORITY_MAPPING` (total over the enum). -/
def cost_priority_mapping : CostCategory → CostPriority
  | .BILLABLE_COMPUTE => .HIGH
  | .BILLABLE_STORAGE => .MEDIUM
  | .BILLABLE_NETWORKING => .HIGH
  | .BILLABLE_DATABASE => .HIGH
  | .BILLABLE_LOAD_BALANCING => .MEDIUM
  | .BILLABLE_DNS => .LOW
  | .FREE_NETWORKING => .FREE
  | .FREE_SECURITY => .FREE
  | .FREE_IAM => .FREE
  | .FREE_MANAGEMENT => .FREE
  | .UNKNOWN => .UNKNOWN

/-- `CostClassifier.get_cost_category`; the resource type may be Python `None`. -/
def get_cost_category (resource_type : Option String) : CostCategory :=
  match resource_type with
  | none => CostCategory.UNKNOWN
  | some s => (resource_cost_mapping.lookup s).getD CostCategory.UNKNOWN

/-- `CostClassifier.get_cost_priority`. -/
def get_cost_priority (resource_type : Option String) : CostPriority :=
  cost_priority_mapping (get_cost_category resource_type)

/-- `CostClassifier.is_billable`. -/
def is_billable_kind (resource_type : Option String) : Bool :=
  str_starts_with (category_value (get_cost_category resource_type)) "billable_"

/-- `CostClassifier.is_free`. -/
def is_free_kind (resource_type : Option String) : Bool :=
  str_starts_with (category_value (get_cost_category resource_type)) "free_"

/-! ### Resource records and cost results (aggregator inputs) -/

/-- A value in the open-ended discovery metadata bag (`additional_info`). -/
inductive MetaVal where
  | str (s : String)
  | num (q : ℚ)
deriving Repr, DecidableEq

/-- `ResourceInfo` as consumed by the cost core: identifier, optional name,
optional kind string, optional region, and the metadata dict. An empty list
models both a missing and an empty (falsy) `additional_info`. -/
structure ResourceInfo where
  id : String
  name : Option String := none
  type : Option String := none
  region : Option String := none
  additional_info : List (String × MetaVal) := []
deriving Repr, DecidableEq

/-- `additional_info.get(key)` when a string value is expected; a numeric
value behaves like the string-comparisons' failure case and yields `none`. -/
def info_get_str (info : List (String × MetaVal)) (key : String) : Option String :=
  match info.lookup key with
  | some (MetaVal.str s) => some s
  | _ => none

/-- `additional_info.get(key, default)` for string values. -/
def info_get_str_d (info : List (String × MetaVal)) (key default : String) : String :=
  match info.lookup key with
  | some (MetaVal.str s) => s
  | _ => default

/-- `additional_info.get(key, default)` for numeric values. -/
def info_get_num (info : List (String × MetaVal)) (key : String) (default : ℚ) : ℚ :=
  match info.lookup key with
  | some (MetaVal.num q) => q
  | _ => default

/-- One per-resource cost result dict as handed to the aggregator
(`cost_results[resource_id]`); every field is read with `.get` and a
default in the source, hence the `Option`s. -/
structure CostData where
  total_cost : Option ℚ := none
  service : Option String := none
  service_breakdown : Option (List (String × ℚ)) := none
  is_estimated : Option Bool := none
  pricing_source : Option String := none
  hourly_rate : Option ℚ := none
  monthly_rate_per_gb : Option ℚ := none
  data_processing_rate : Option ℚ := none
  estimated_gb_processed : Option ℚ := none
  estimated_gb_stored : Option ℚ := none
  calculation_failed : Option Bool := none
deriving Repr, DecidableEq

/-- The `additional_details` diagnostic dict built inside `aggregate_costs`. -/
structure AdditionalDetails where
  hourly_rate : Option ℚ
  monthly_rate_per_gb : Option ℚ
  data_processing_rate : Option ℚ
  estimated_gb_processed : Option ℚ
  estimated_gb_stored : Option ℚ
  calculation_failed : Bool
deriving Repr, DecidableEq

/-- `ResourceCostSummary` dataclass from `cost_aggregator.py`. -/
structure ResourceCostSummary where
  resource_id : String
  resource_name : Option String
  resource_type : Option String
  service : String
  region : String
  cost_category : CostCategory
  cost_priority : CostPriority
  total_cost : ℚ
  service_breakdown : List (String × ℚ)
  is_estimated : Bool
  pricing_source : String
  additional_details : AdditionalDetails
deriving Repr, DecidableEq

/-! ### `CostAggregator` (`cost_aggregator.py`) -/

/-- Cost thresholds from the `CostAggregator` constructor. -/
def high_cost_resource_threshold : ℚ := 50

/-- `medium_cost_resource` threshold from the `CostAggregator` constructor. -/
def medium_cost_resource_threshold : ℚ := 10

/-- `optimization_threshold` from the `CostAggregator` constructor. -/
def optimization_threshold : ℚ := 100

/-- `CostAggregator._determine_resource_type`: ARN mapping when the resource
came from the ResourceGroups API, otherwise the resource's own type string. -/
def determine_resource_type (r : ResourceInfo) : Option String :=
  if !r.additional_info.isEmpty then
    if info_get_str r.additional_info "discovery_method" == some "resource_groups_api" then
      let service := info_get_str_d r.additional_info "service" ""
      let resource_type := info_get_str_d r.additional_info "resource_type" ""
      if service == "ec2" then
        if resource_type == "instance" then some "instances"
        else if resource_type == "volume" then some "volumes"
        else if str_contains resource_type "natgateway" then some "nat_gateways"
        else if str_contains resource_type "elastic-ip" then some "elastic_ips"
        else if str_contains resource_type "vpc-endpoint" then some "vpc_endpoints"
        else if str_contains resource_type "security-group" then some "security_groups"
        else r.type
      else if service == "s3" then some "s3_buckets"
      else if service == "route53" then some "route53_zones"
      else if service == "elasticloadbalancing" then some "albs_nlbs"
      else r.type
    else r.type
  else r.type

/-- The `resource_lookup` dict `{r.id: r for r in resources}`: a later
resource with the same id overwrites an earlier one. -/
def resource_lookup (resources : List ResourceInfo) (rid : String) : Option ResourceInfo :=
  resources.foldl (fun acc r => if r.id == rid then some r else acc) none

/-- One `ResourceCostSummary` as built in the `aggregate_costs` join loop. -/
def mk_summary (r : ResourceInfo) (cd : CostData) (region : String) : ResourceCostSummary :=
  let resource_type := determine_resource_type r
  { resource_id := r.id
    resource_name := r.name
    resource_type := resource_type
    service := cd.service.getD "Unknown"
    region := py_or r.region region
    cost_category := get_cost_category resource_type
    cost_priority := get_cost_priority resource_type
    total_cost := cd.total_cost.getD 0
    service_breakdown := cd.service_breakdown.getD []
    is_estimated := cd.is_estimated.getD true
    pricing_source := cd.pricing_source.getD "Unknown"
    additional_details :=
      { hourly_rate := cd.hourly_rate
        monthly_rate_per_gb := cd.monthly_rate_per_gb
        data_processing_rate := cd.data_processing_rate
        estimated_gb_processed := cd.estimated_gb_processed
        estimated_gb_stored := cd.estimated_gb_stored
        calculation_failed := cd.calculation_failed.getD false } }

/-- The join loop of `aggregate_costs`: iterate the cost-result dict in
insertion order, skip ids without a matching resource, and build summaries. -/
def mk_resource_summaries (cost_results : List (String × CostData))
    (resources : List ResourceInfo) (region : String) : List ResourceCostSummary :=
  cost_results.filterMap fun p =>
    match resource_lookup resources p.1 with
    | none => none
    | some r => some (mk_summary r p.2 region)

/-- The running `total_cost` accumulated in the join loop. -/
def summary_total (summaries : List ResourceCostSummary) : ℚ :=
  (summaries.map (fun s => s.total_cost)).sum

/-- The running `billable_cost` accumulated in the join loop. -/
def summary_billable_total (summaries : List ResourceCostSummary) : ℚ :=
  ((summaries.filter (fun s => is_billable_kind s.resource_type)).map
    (fun s => s.total_cost)).sum

/-- `CostAggregator._calculate_cost_by_category`. -/
def calculate_cost_by_category (summaries : List ResourceCostSummary) :
    List (CostCategory × ℚ) :=
  summaries.foldl (fun m s => bump_key m s.cost_category s.total_cost) []

/-- `CostAggregator._calculate_cost_by_service`. -/
def calculate_cost_by_service (summaries : List ResourceCostSummary) :
    List (String × ℚ) :=
  summaries.foldl (fun m s => bump_key m s.service s.total_cost) []

/-- `CostAggregator._calculate_cost_by_priority`. -/
def calculate_cost_by_priority (summaries : List ResourceCostSummary) :
    List (CostPriority × ℚ) :=
  summaries.foldl (fun m s => bump_key m s.cost_priority s.total_cost) []

/-- `CostAggregator._calculate_cost_by_region` (`summary.region or 'Unknown'`). -/
def calculate_cost_by_region (summaries : List ResourceCostSummary) :
    List (String × ℚ) :=
  summaries.foldl (fun m s => bump_key m (str_or s.region "Unknown") s.total_cost) []

/-- `sorted(summaries, key=lambda x: x.total_cost, reverse=True)`. -/
def sort_by_cost_desc (summaries : List ResourceCostSummary) : List ResourceCostSummary :=
  summaries.insertionSort (fun a b => b.total_cost ≤ a.total_cost)

/-- Result dict of `CostAggregator._analyze_cost_distribution` (the constant
`cost_thresholds` echo is omitted). -/
structure CostDistributionAnalysis where
  total_cost : ℚ
  high_cost_count : ℕ
  medium_cost_count : ℕ
  low_cost_count : ℕ
  zero_cost_count : ℕ
  top_5_resources_cost : ℚ
  top_5_percentage : ℚ
  average_cost_per_resource : ℚ
  median_cost : ℚ
deriving Repr, DecidableEq

/-- `CostAggregator._analyze_cost_distribution`; `none` models the `{}`
returned for an empty summary list. -/
def analyze_cost_distribution (summaries : List ResourceCostSummary) :
    Option CostDistributionAnalysis :=
  if summaries.isEmpty then none
  else
    let costs := summaries.map (fun s => s.total_cost)
    let total_cost := costs.sum
    let sorted_summaries := sort_by_cost_desc summaries
    let top_5_cost := ((sorted_summaries.take 5).map (fun s => s.total_cost)).sum
    some
      { total_cost := total_cost
        high_cost_count :=
          (summaries.filter (fun s => high_cost_resource_threshold ≤ s.total_cost)).length
        medium_cost_count :=
          (summaries.filter (fun s =>
            medium_cost_resource_threshold ≤ s.total_cost ∧
              s.total_cost < high_cost_resource_threshold)).length
        low_cost_count :=
          (summaries.filter (fun s =>
            0 < s.total_cost ∧ s.total_cost < medium_cost_resource_threshold)).length
        zero_cost_count := (summaries.filter (fun s => s.total_cost = 0)).length
        top_5_resources_cost := top_5_cost
        top_5_percentage := if 0 < total_cost then top_5_cost / total_cost * 100 else 0
        average_cost_per_resource := total_cost / (summaries.length : ℚ)
        median_cost := (costs.insertionSort (fun a b => a ≤ b)).getD (costs.length / 2) 0 }

/-- One entry of the `optimization_suggestions` list. -/
structure OptimizationSuggestion where
  resource_id : String
  suggestion_type : String
  description : String
  potential_monthly_savings : ℚ
  complexity : String
deriving Repr, DecidableEq

/-- `CostAggregator._get_resource_optimization_suggestions`. -/
def get_resource_optimization_suggestions (r : ResourceCostSummary) :
    List OptimizationSuggestion :=
  if r.cost_category == CostCategory.BILLABLE_NETWORKING then
    if r.resource_type == some "nat_gateways" then
      [{ resource_id := r.resource_id
         suggestion_type := "NAT Gateway Optimization"
         description := "Consider consolidating NAT Gateways or using NAT Instances for dev environments"
         potential_monthly_savings := r.total_cost * 0.5
         complexity := "MEDIUM" }]
    else if r.resource_type == some "elastic_ips" then
      [{ resource_id := r.resource_id
         suggestion_type := "Elastic IP Optimization"
         description := "Release unused Elastic IPs or associate with running instances"
         potential_monthly_savings := r.total_cost
         complexity := "LOW" }]
    else []
  else if r.cost_category == CostCategory.BILLABLE_COMPUTE then
    if 100 < r.total_cost then
      [{ resource_id := r.resource_id
         suggestion_type := "Instance Right-sizing"
         description := "Analyze instance utilization and consider right-sizing"
         potential_monthly_savings := r.total_cost * 0.2
         complexity := "MEDIUM" }]
    else []
  else if r.cost_category == CostCategory.BILLABLE_STORAGE then
    if r.resource_type == some "s3_buckets" then
      [{ resource_id := r.resource_id
         suggestion_type := "S3 Storage Class Optimization"
         description := "Consider using Intelligent Tiering or cheaper storage classes"
         potential_monthly_savings := r.total_cost * 0.3
         complexity := "LOW" }]
    else []
  else []

/-- Result dict of `CostAggregator._analyze_optimization_potential`. -/
structure OptimizationPotential where
  needs_optimization : Bool
  optimization_priority : String
  total_potential_savings : ℚ
  savings_percentage : ℚ
  high_cost_resource_count : ℕ
  optimization_suggestions : List OptimizationSuggestion
deriving Repr, DecidableEq

/-- `CostAggregator._analyze_optimization_potential`. -/
def analyze_optimization_potential (summaries : List ResourceCostSummary)
    (total_cost : ℚ) : OptimizationPotential :=
  let high_cost_resources :=
    summaries.filter (fun s => high_cost_resource_threshold ≤ s.total_cost)
  let suggestions :=
    high_cost_resources.foldl (fun acc r => acc ++ get_resource_optimization_suggestions r) []
  let potential_savings := (suggestions.map (fun s => s.potential_monthly_savings)).sum
  { needs_optimization := optimization_threshold < total_cost
    optimization_priority :=
      if 200 < total_cost then "HIGH" else if 100 < total_cost then "MEDIUM" else "LOW"
    total_potential_savings := potential_savings
    savings_percentage := if 0 < total_cost then potential_savings / total_cost * 100 else 0
    high_cost_resource_count := high_cost_resources.length
    optimization_suggestions := suggestions }

/-- `monthly_multiplier = 30.0 / period_days if period_days != 30 else 1.0`. -/
def monthly_multiplier (period_days : ℕ) : ℚ :=
  if period_days ≠ 30 then 30 / (period_days : ℚ) else 1

/-- `ComprehensiveCostSummary` dataclass (the wall-clock `analysis_date` and
the empty `cost_trends` default are omitted from the model). -/
structure ComprehensiveCostSummary where
  cluster_id : String
  region : String
  period_days : ℕ
  total_monthly_cost : ℚ
  total_billable_cost : ℚ
  total_resources : ℕ
  billable_resources : ℕ
  free_resources : ℕ
  cost_by_category : List (CostCategory × ℚ)
  cost_by_service : List (String × ℚ)
  cost_by_priority : List (CostPriority × ℚ)
  cost_by_region : List (String × ℚ)
  resource_summaries : List ResourceCostSummary
  highest_cost_resources : List ResourceCostSummary
  cost_distribution_analysis : Option CostDistributionAnalysis
  optimization_potential : OptimizationPotential
deriving Repr, DecidableEq

/-- `CostAggregator.aggregate_costs`. -/
def aggregate_costs (cost_results : List (String × CostData))
    (resources : List ResourceInfo) (cluster_id region : String)
    (period_days : ℕ) : ComprehensiveCostSummary :=
  let summaries := mk_resource_summaries cost_results resources region
  { cluster_id := cluster_id
    region := region
    period_days := period_days
    total_monthly_cost := summary_total summaries * monthly_multiplier period_days
    total_billable_cost := summary_billable_total summaries * monthly_multiplier period_days
    total_resources := summaries.length
    billable_resources := (summaries.filter (fun s => is_billable_kind s.resource_type)).length
    free_resources := (summaries.filter (fun s => is_free_kind s.resource_type)).length
    cost_by_category := calculate_cost_by_category summaries
    cost_by_service := calculate_cost_by_service summaries
    cost_by_priority := calculate_cost_by_priority summaries
    cost_by_region := calculate_cost_by_region summaries
    resource_summaries := summaries
    highest_cost_resources := (sort_by_cost_desc summaries).take 10
    cost_distribution_analysis := analyze_cost_distribution summaries
    optimization_potential := analyze_optimization_potential summaries (summary_total summaries) }

/-! ### Post-hoc filtering (`main.py`, `_apply_cost_filters_and_sorting`) -/

/-- The CLI argument fields read by `_apply_cost_filters_and_sorting`. -/
structure FilterArgs where
  cost_threshold : Option ℚ := none
  cost_filter : Option String := none
  sort_by_cost : Bool := false
deriving Repr, DecidableEq

/-- The `filtered_resources` pipeline: threshold filter, then cost-level
filter, then optional descending sort. -/
def filter_resources (summary : ComprehensiveCostSummary) (args : FilterArgs) :
    List ResourceCostSummary :=
  let fr := summary.resource_summaries
  let fr :=
    match args.cost_threshold with
    | some t => fr.filter (fun r => t ≤ r.total_cost)
    | none => fr
  let fr :=
    match args.cost_filter with
    | none => fr
    | some f =>
      if f == "" then fr
      else if f == "high" then fr.filter (fun r => (50 : ℚ) ≤ r.total_cost)
      else if f == "medium" then
        fr.filter (fun r => (10 : ℚ) ≤ r.total_cost ∧ r.total_cost < 50)
      else if f == "low" then
        fr.filter (fun r => (0 : ℚ) < r.total_cost ∧ r.total_cost < 10)
      else if f == "billable" then fr.filter (fun r => (0 : ℚ) < r.total_cost)
      else if f == "free" then fr.filter (fun r => r.total_cost = 0)
      else fr
  if args.sort_by_cost then sort_by_cost_desc fr else fr

/-- `_apply_cost_filters_and_sorting`: when the filtered list has a different
length, rebuild a summary with recomputed totals, counts and the category,
service and priority breakdowns, keeping the original `cost_by_region`,
distribution analysis and optimization potential; otherwise return the
original summary unchanged. The recomputation loops in `main.py` have the
same dict-accumulation shape as the `_calculate_cost_by_*` helpers, so the
embedding reuses those definitions. -/
def apply_cost_filters_and_sorting (summary : ComprehensiveCostSummary)
    (args : FilterArgs) : ComprehensiveCostSummary :=
  let fr := filter_resources summary args
  if fr.length ≠ summary.resource_summaries.length then
    { cluster_id := summary.cluster_id
      region := summary.region
      period_days := summary.period_days
      total_monthly_cost := (fr.map (fun r => r.total_cost)).sum
      total_billable_cost :=
        ((fr.filter (fun r => (0 : ℚ) < r.total_cost)).map (fun r => r.total_cost)).sum
      total_resources := fr.length
      billable_resources := (fr.filter (fun r => (0 : ℚ) < r.total_cost)).length
      free_resources := fr.length - (fr.filter (fun r => (0 : ℚ) < r.total_cost)).length
      cost_by_category := calculate_cost_by_category fr
      cost_by_service := calculate_cost_by_service fr
      cost_by_priority := calculate_cost_by_priority fr
      cost_by_region := summary.cost_by_region
      resource_summaries := fr
      highest_cost_resources := (sort_by_cost_desc fr).take 10
      cost_distribution_analysis := summary.cost_distribution_analysis
      optimization_potential := summary.optimization_potential }
  else summary

/-! ### Pricing service (`pricing_service.py`) -/

/-- The live pricing lookups (`get_ec2_instance_pricing`, `get_ebs_volume_pricing`,
`get_elb_pricing`, `get_nat_gateway_pricing`, `get_elastic_ip_pricing`,
`get_vpc_endpoint_pricing` for interface endpoints, `get_s3_bucket_pricing`)
perform network I/O with static fallbacks; each is modelled as an abstract
rate oracle keyed exactly like the source's cache keys. -/
structure PricingRates where
  ec2_hourly : String → String → ℚ
  ebs_monthly_per_gb : String → String → ℚ
  elb_hourly : String → String → ℚ
  nat_hourly : String → ℚ
  nat_data : String → ℚ
  eip_hourly : String → ℚ
  vpce_hourly : String → String → ℚ
  vpce_data : String → String → ℚ
  s3_monthly_per_gb : String → String → ℚ
  s3_request_per_thousand : String → String → ℚ

/-- `PricingService.get_route53_pricing` (pure constants in the source). -/
def get_route53_pricing (resource_type : String) : ℚ :=
  if resource_type == "hosted_zone" then 0.50
  else if resource_type == "query" then 0.0000004
  else 0.0000004

/-- One per-resource cost dict as produced by the calculators and the
batch-fallback path; unused keys of a branch stay at their defaults. -/
structure CalcResult where
  total_cost : ℚ
  service_breakdown : List (String × ℚ)
  service : String
  is_estimated : Bool
  pricing_source : String
  hourly_rate : Option ℚ := none
  monthly_rate_per_gb : Option ℚ := none
  size_gb : Option ℚ := none
  actual_instance_type : Option String := none
  data_quality_warning : Bool := false
  data_processing_rate : Option ℚ := none
  estimated_gb_processed : Option ℚ := none
  estimated_gb_stored : Option ℚ := none
  monthly_cost : Option ℚ := none
  endpoint_type : Option String := none
  storage_class : Option String := none
  estimated_requests : Option ℚ := none
  estimated_queries : Option ℚ := none
  cost_per_million_queries : Option ℚ := none
  note : Option String := none
  calculation_failed : Bool := false
  error : Option String := none
  retry_attempts : Option ℕ := none
deriving Repr, DecidableEq

/-- `PricingService._calculate_ec2_instance_cost`. -/
def calculate_ec2_instance_cost (rates : PricingRates) (r : ResourceInfo)
    (region : String) (days : ℕ) : CalcResult :=
  let instance_type0 := py_or r.type "t3.micro"
  let instance_type :=
    if instance_type0 == "instance" then
      let specific :=
        if !r.additional_info.isEmpty then info_get_str r.additional_info "instance_type"
        else none
      if truthy_str specific then specific.getD "" else "t3.medium"
    else instance_type0
  let hourly_rate := rates.ec2_hourly instance_type region
  let is_est :=
    (r.type == some "instance") &&
      !((!r.additional_info.isEmpty) && truthy_str (info_get_str r.additional_info "instance_type"))
  let total_cost := hourly_rate * ((days : ℚ) * 24)
  { total_cost := total_cost
    service_breakdown := [("EC2-Instance", total_cost)]
    service := "EC2-Instance"
    is_estimated := is_est
    hourly_rate := some hourly_rate
    pricing_source :=
      if is_est then "AWS Pricing API (ESTIMATED - using " ++ instance_type ++ " as default)"
      else "AWS Pricing API"
    actual_instance_type := some instance_type
    data_quality_warning := is_est }

/-- `PricingService._calculate_ebs_volume_cost`. -/
def calculate_ebs_volume_cost (rates : PricingRates) (r : ResourceInfo)
    (region : String) (days : ℕ) : CalcResult :=
  let size_gb := info_get_num r.additional_info "size_gb" 20
  let volume_type := info_get_str_d r.additional_info "volume_type" "gp2"
  let monthly_rate_per_gb := rates.ebs_monthly_per_gb volume_type region
  let monthly_cost := monthly_rate_per_gb * size_gb
  let period_cost := monthly_cost * ((days : ℚ) / 30)
  { total_cost := period_cost
    service_breakdown := [("EBS-Volume", period_cost)]
    service := "EBS-Volume"
    is_estimated := false
    monthly_rate_per_gb := some monthly_rate_per_gb
    size_gb := some size_gb
    pricing_source := "AWS Pricing API" }

/-- Helper for Python `str.title()`: capitalise the first letter of each
alphabetic run, lowercase the rest. -/
def py_title_go : Bool → List Char → List Char
  | _, [] => []
  | prev_alpha, c :: cs =>
    let c' := if c.isAlpha then (if prev_alpha then c.toLower else c.toUpper) else c
    c' :: py_title_go c.isAlpha cs

/-- Python `s.title()`. -/
def py_title (s : String) : String :=
  String.mk (py_title_go false s.data)

/-- `PricingService._calculate_elb_cost`. -/
def calculate_elb_cost (rates : PricingRates) (region : String) (days : ℕ)
    (elb_type : String) : CalcResult :=
  let hourly_rate := rates.elb_hourly elb_type region
  let total_cost := hourly_rate * ((days : ℚ) * 24)
  let service_name := "ELB-" ++ py_title elb_type
  { total_cost := total_cost
    service_breakdown := [(service_name, total_cost)]
    service := service_name
    is_estimated := false
    hourly_rate := some hourly_rate
    pricing_source := "AWS Pricing API" }

/-- `PricingService._calculate_nat_gateway_cost`. -/
def calculate_nat_gateway_cost (rates : PricingRates) (region : String)
    (days : ℕ) : CalcResult :=
  let hourly_cost := rates.nat_hourly region * ((days : ℚ) * 24)
  let estimated_gb_processed := ((days : ℚ) / 30) * 100
  let data_processing_cost := estimated_gb_processed * rates.nat_data region
  let total_cost := hourly_cost + data_processing_cost
  { total_cost := total_cost
    service_breakdown := [("NAT-Gateway-Hours", hourly_cost), ("NAT-Gateway-Data", data_processing_cost)]
    service := "NAT-Gateway"
    is_estimated := false
    hourly_rate := some (rates.nat_hourly region)
    data_processing_rate := some (rates.nat_data region)
    estimated_gb_processed := some estimated_gb_processed
    pricing_source := "AWS Pricing API" }

/-- `PricingService._calculate_elastic_ip_cost`. -/
def calculate_elastic_ip_cost (rates : PricingRates) (region : String)
    (days : ℕ) : CalcResult :=
  let hourly_rate := rates.eip_hourly region
  let total_cost := hourly_rate * ((days : ℚ) * 24)
  { total_cost := total_cost
    service_breakdown := [("Elastic-IP", total_cost)]
    service := "Elastic-IP"
    is_estimated := false
    hourly_rate := some hourly_rate
    pricing_source := "AWS Pricing API"
    note := some "Cost applies only when EIP is not associated with running instance" }

/-- `PricingService._calculate_vpc_endpoint_cost` (gateway endpoints are free,
interface endpoints have hourly plus data-processing charges). -/
def calculate_vpc_endpoint_cost (rates : PricingRates) (r : ResourceInfo)
    (region : String) (days : ℕ) : CalcResult :=
  let endpoint_type := info_get_str_d r.additional_info "endpoint_type" "interface"
  let is_interface :=
    str_lower endpoint_type == "interface" || str_lower endpoint_type == "interfaceendpoint"
  if !is_interface then
    { total_cost := 0
      service_breakdown := [("VPC-Endpoint-Gateway", 0)]
      service := "VPC-Endpoint-Gateway"
      is_estimated := false
      pricing_source := "AWS Pricing (Free Service)"
      endpoint_type := some endpoint_type }
  else
    let hourly_cost := rates.vpce_hourly endpoint_type region * ((days : ℚ) * 24)
    let estimated_gb_processed := ((days : ℚ) / 30) * 50
    let data_processing_cost := estimated_gb_processed * rates.vpce_data endpoint_type region
    let total_cost := hourly_cost + data_processing_cost
    { total_cost := total_cost
      service_breakdown := [("VPC-Endpoint-Hours", hourly_cost), ("VPC-Endpoint-Data", data_processing_cost)]
      service := "VPC-Endpoint-Interface"
      is_estimated := false
      hourly_rate := some (rates.vpce_hourly endpoint_type region)
      data_processing_rate := some (rates.vpce_data endpoint_type region)
      estimated_gb_processed := some estimated_gb_processed
      endpoint_type := some endpoint_type
      pricing_source := "AWS Pricing API" }

/-- `PricingService._calculate_s3_bucket_cost`. -/
def calculate_s3_bucket_cost (rates : PricingRates) (r : ResourceInfo)
    (region : String) (days : ℕ) : CalcResult :=
  let storage_class := info_get_str_d r.additional_info "storage_class" "Standard"
  let estimated_gb_stored := info_get_num r.additional_info "estimated_size_gb" 10
  let monthly_storage_cost := estimated_gb_stored * rates.s3_monthly_per_gb storage_class region
  let period_storage_cost := monthly_storage_cost * ((days : ℚ) / 30)
  let estimated_requests := 10000 * ((days : ℚ) / 30)
  let request_cost := (estimated_requests / 1000) * rates.s3_request_per_thousand storage_class region
  let total_cost := period_storage_cost + request_cost
  { total_cost := total_cost
    service_breakdown := [("S3-Storage", period_storage_cost), ("S3-Requests", request_cost)]
    service := "S3-Bucket"
    is_estimated := true
    monthly_rate_per_gb := some (rates.s3_monthly_per_gb storage_class region)
    estimated_gb_stored := some estimated_gb_stored
    estimated_requests := some estimated_requests
    storage_class := some storage_class
    pricing_source := "AWS Pricing API" }

/-- `PricingService._calculate_route53_cost`. -/
def calculate_route53_cost (days : ℕ) (resource_type : String) : CalcResult :=
  if resource_type == "hosted_zone" then
    let monthly_cost := get_route53_pricing "hosted_zone"
    let period_cost := monthly_cost * ((days : ℚ) / 30)
    { total_cost := period_cost
      service_breakdown := [("Route53-HostedZone", period_cost)]
      service := "Route53-HostedZone"
      is_estimated := false
      monthly_cost := some monthly_cost
      pricing_source := "AWS Pricing" }
  else
    let query_cost_per_million := get_route53_pricing "query" * 1000000
    let estimated_queries := 1000000 * ((days : ℚ) / 30)
    let period_cost := (estimated_queries / 1000000) * query_cost_per_million
    { total_cost := period_cost
      service_breakdown := [("Route53-Queries", period_cost)]
      service := "Route53-Queries"
      is_estimated := true
      estimated_queries := some estimated_queries
      cost_per_million_queries := some query_cost_per_million
      pricing_source := "AWS Pricing" }

/-- `PricingService._get_free_service_cost`. -/
def get_free_service_cost (service_name : String) : CalcResult :=
  { total_cost := 0
    service_breakdown := [(service_name, 0)]
    service := service_name
    is_estimated := false
    pricing_source := "AWS Pricing (Free Service)" }

/-- `PricingService._get_default_cost_data`. -/
def get_default_cost_data : CalcResult :=
  { total_cost := 0
    service_breakdown := [("Unknown", 0)]
    service := "Unknown"
    is_estimated := true
    pricing_source := "Default (Unknown Resource Type)" }

/-- Per-service type tables of `PricingService._map_arn_to_category`. -/
def arn_ec2_type_map : List (String × String) :=
  [("instance", "instances"), ("volume", "volumes"), ("natgateway", "nat_gateways"),
   ("nat-gateway", "nat_gateways"), ("elastic-ip", "elastic_ips"),
   ("vpc-endpoint", "vpc_endpoints"), ("security-group", "security_groups"),
   ("network-interface", "network_interfaces"), ("vpc", "vpcs"), ("subnet", "subnets"),
   ("route-table", "route_tables"), ("internet-gateway", "internet_gateways")]

/-- `service_type_mapping` dict of `_map_arn_to_category`. -/
def service_type_mapping : List (String × List (String × String)) :=
  [("ec2", arn_ec2_type_map),
   ("elasticloadbalancing", [("loadbalancer", "albs_nlbs"), ("targetgroup", "target_groups")]),
   ("s3", [("", "s3_buckets")]),
   ("route53", [("hostedzone", "route53_zones"), ("rrset", "route53_records")]),
   ("iam", [("role", "iam_roles"), ("policy", "iam_policies")]),
   ("cloudformation", [("stack", "cloudformation_stacks")])]

/-- The per-service resolution of `_map_arn_to_category`: exact match, then
first partial (substring) match in insertion order, then the empty key. -/
def map_in_service_table (service_map : List (String × String)) (t : String) : String :=
  match service_map.lookup t with
  | some cat => cat
  | none =>
    match service_map.find? (fun p => !(p.1 == "") && str_contains t p.1) with
    | some p => p.2
    | none =>
      match service_map.lookup "" with
      | some cat => cat
      | none => "unknown"

/-- `PricingService._map_arn_to_category`. -/
def map_arn_to_category (arn_service arn_resource_type : Option String) : String :=
  if !truthy_str arn_service || !truthy_str arn_resource_type then "unknown"
  else
    match service_type_mapping.lookup (arn_service.getD "") with
    | some smap => map_in_service_table smap (arn_resource_type.getD "")
    | none => "unknown"

/-- `PricingService.calculate_resource_cost`: category resolution (legacy
`resource_category` field, then ARN mapping for ResourceGroups discovery)
followed by the per-category dispatch. -/
def calculate_resource_cost (rates : PricingRates) (r : ResourceInfo)
    (region : String) (days : ℕ) : CalcResult :=
  if r.additional_info.isEmpty then get_default_cost_data
  else
    let rc0 := info_get_str r.additional_info "resource_category"
    let resource_category : Option String :=
      if truthy_str rc0 then rc0
      else if info_get_str r.additional_info "discovery_method" == some "resource_groups_api" then
        some (map_arn_to_category (info_get_str r.additional_info "service")
          (info_get_str r.additional_info "resource_type"))
      else rc0
    let cat_in := fun (names : List String) =>
      match resource_category with
      | some c => names.contains c
      | none => false
    if cat_in ["ec2_instance", "instances"] then calculate_ec2_instance_cost rates r region days
    else if cat_in ["ebs_volume", "volumes"] then calculate_ebs_volume_cost rates r region days
    else if cat_in ["security_group", "security_groups"] then get_free_service_cost "Security-Group"
    else if cat_in ["network_interface", "network_interfaces"] then
      get_free_service_cost "Network-Interface"
    else if cat_in ["classic_elb", "classic_elbs"] then calculate_elb_cost rates region days "classic"
    else if cat_in ["alb_nlb", "albs_nlbs", "target_groups"] then
      calculate_elb_cost rates region days (py_or r.type "application")
    else if cat_in ["nat_gateway", "nat_gateways"] then calculate_nat_gateway_cost rates region days
    else if cat_in ["elastic_ip", "elastic_ips"] then calculate_elastic_ip_cost rates region days
    else if cat_in ["vpc_endpoint", "vpc_endpoints"] then
      calculate_vpc_endpoint_cost rates r region days
    else if cat_in ["s3_bucket", "s3_buckets"] then calculate_s3_bucket_cost rates r region days
    else if cat_in ["route53_zone", "route53_zones"] then calculate_route53_cost days "hosted_zone"
    else if cat_in ["route53_record", "route53_records"] then calculate_route53_cost days "query"
    else if cat_in ["vpc", "vpcs", "subnet", "subnets", "route_table", "route_tables",
        "internet_gateway", "internet_gateways", "iam_role", "iam_roles",
        "iam_policy", "iam_policies", "cloudformation_stack", "cloudformation_stacks"] then
      get_free_service_cost (py_title ((resource_category.getD "").replace "_" "-"))
    else get_default_cost_data

/-! ### Retry executor and error classifier (`pricing_service.py`) -/

/-- `retriable_indicators` list of `PricingService._is_retriable_error`. -/
def retriable_indicators : List String :=
  ["throttling", "rate exceeded", "timeout", "connection", "network",
   "service unavailable", "internal error", "temporary failure"]

/-- `non_retriable_indicators` list of `PricingService._is_retriable_error`. -/
def non_retriable_indicators : List String :=
  ["access denied", "invalid parameter", "malformed", "not found", "unauthorized"]

/-- `PricingService._is_retriable_error`: lowercase the error text, check the
non-retriable indicators first, then the retriable ones, defaulting to
retriable for unknown errors. -/
def is_retriable_error (error_text : String) : Bool :=
  let error_str := str_lower error_text
  if non_retriable_indicators.any (fun ind => str_contains error_str ind) then false
  else if retriable_indicators.any (fun ind => str_contains error_str ind) then true
  else true

/-- `PricingService._get_batch_fallback_cost_data` (with `_max_retries = 3`
as `retry_attempts` unless instantiated otherwise). -/
def get_batch_fallback_cost_data (max_retries : ℕ) (exc_text : String) : CalcResult :=
  { total_cost := 0
    service_breakdown := [("Unknown", 0)]
    service := "Unknown"
    is_estimated := true
    pricing_source := "Batch Fallback (Error: " ++ exc_text.take 50 ++ ")"
    calculation_failed := true
    error := some exc_text
    retry_attempts := some max_retries }

/-- Python `str(last_exception)` where `last_exception` may still be `None`. -/
def py_str_of_exc : Option String → String
  | none => "None"
  | some e => e

/-- `range(k, k + n)`; `range_from 0 n` is Python `range(n)`. -/
def range_from (k : ℕ) : ℕ → List ℕ
  | 0 => []
  | n + 1 => k :: range_from (k + 1) n

/-- The `for attempt in range(max_retries + 1)` loop body of
`calculate_resource_cost_with_retry`. `cost_calc` abstracts
`self.calculate_resource_cost`, indexed by attempt number since each call
may hit a different external-world state; the first component of the result
counts how many times `cost_calc` was invoked. The backoff `time.sleep` is a
no-op for the result value and is not modelled. -/
def retry_loop (cost_calc : ℕ → Except String CalcResult) (max_retries : ℕ)
    (last_exc : Option String) : List ℕ → ℕ × CalcResult
  | [] => (0, get_batch_fallback_cost_data max_retries (py_str_of_exc last_exc))
  | attempt :: rest =>
    match cost_calc attempt with
    | Except.ok res => (1, res)
    | Except.error e =>
      if is_retriable_error e = false then (1, get_batch_fallback_cost_data max_retries e)
      else if attempt < max_retries then
        let p := retry_loop cost_calc max_retries (some e) rest
        (p.1 + 1, p.2)
      else (1, get_batch_fallback_cost_data max_retries e)

/-- `PricingService.calculate_resource_cost_with_retry`. -/
def calculate_resource_cost_with_retry (cost_calc : ℕ → Except String CalcResult)
    (max_retries : ℕ) : ℕ × CalcResult :=
  retry_loop cost_calc max_retries none (range_from 0 (max_retries + 1))

/-! ### Spec-side quantities and shared lemmas -/

/-- The claim's grand total: the sum of `total_cost` over all cost results
joined to a resource by id. -/
def grand_total (cost_results : List (String × CostData))
    (resources : List ResourceInfo) : ℚ :=
  (cost_results.filterMap (fun p =>
    (resource_lookup resources p.1).map (fun _ => p.2.total_cost.getD 0))).sum

/-- The raw-period billable subtotal: the sum of `total_cost` over joined
entries whose determined resource type is billable. -/
def billable_grand_total (cost_results : List (String × CostData))
    (resources : List ResourceInfo) : ℚ :=
  (cost_results.filterMap (fun p =>
    match resource_lookup resources p.1 with
    | some r =>
      if is_billable_kind (determine_resource_type r) then some (p.2.total_cost.getD 0)
      else none
    | none => none)).sum

theorem map_total_nil {K : Type} : map_total ([] : List (K × ℚ)) = 0 := rfl

theorem map_total_cons {K : Type} (p : K × ℚ) (m : List (K × ℚ)) :
    map_total (p :: m) = p.2 + map_total m := by
  simp [map_total]

theorem map_total_bump_key {K : Type} [BEq K] (m : List (K × ℚ)) (k : K) (v : ℚ) :
    map_total (bump_key m k v) = map_total m + v := by
  induction m with
  | nil => simp [bump_key, map_total]
  | cons hd tl ih =>
    obtain ⟨k', v'⟩ := hd
    rw [bump_key]
    split
    · rw [map_total_cons, map_total_cons]
      ring
    · rw [map_total_cons, map_total_cons, ih]
      ring

theorem map_total_fold {α K : Type} [BEq K] (l : List α) (key : α → K) (val : α → ℚ)
    (init : List (K × ℚ)) :
    map_total (l.foldl (fun m s => bump_key m (key s) (val s)) init) =
      map_total init + (l.map val).sum := by
  induction l generalizing init with
  | nil => simp
  | cons hd tl ih =>
    rw [List.foldl_cons, ih, map_total_bump_key, List.map_cons, List.sum_cons]
    ring


theorem map_total_cost_by_category (summaries : List ResourceCostSummary) :
    map_total (calculate_cost_by_category summaries) = summary_total summaries := by
  have h := map_total_fold summaries (fun s => s.cost_category) (fun s => s.total_cost) []
  simpa [calculate_cost_by_category, summary_total, map_total_nil] using h

theorem map_total_cost_by_service (summaries : List ResourceCostSummary) :
    map_total (calculate_cost_by_service summaries) = summary_total summaries := by
  have h := map_total_fold summaries (fun s => s.service) (fun s => s.total_cost) []
  simpa [calculate_cost_by_service, summary_total, map_total_nil] using h

theorem map_total_cost_by_priority (summaries : List ResourceCostSummary) :
    map_total (calculate_cost_by_priority summaries) = summary_total summaries := by
  have h := map_total_fold summaries (fun s => s.cost_priority) (fun s => s.total_cost) []
  simpa [calculate_cost_by_priority, summary_total, map_total_nil] using h

theorem map_total_cost_by_region (summaries : List ResourceCostSummary) :
    map_total (calculate_cost_by_region summaries) = summary_total summaries := by
  have h := map_total_fold summaries (fun s => str_or s.region "Unknown") (fun s => s.total_cost) []
  simpa [calculate_cost_by_region, summary_total, map_total_nil] using h

theorem mk_resource_summaries_cons (hd : String × CostData) (tl : List (String × CostData))
    (resources : List ResourceInfo) (region : String) :
    mk_resource_summaries (hd :: tl) resources region =
      match resource_lookup resources hd.1 with
      | none => mk_resource_summaries tl resources region
      | some r => mk_summary r hd.2 region :: mk_resource_summaries tl resources region := by
  rw [mk_resource_summaries, List.filterMap_cons]
  cases resource_lookup resources hd.1 <;> rfl

theorem grand_total_cons (hd : String × CostData) (tl : List (String × CostData))
    (resources : List ResourceInfo) :
    grand_total (hd :: tl) resources =
      (match resource_lookup resources hd.1 with
       | none => 0
       | some _ => hd.2.total_cost.getD 0) + grand_total tl resources := by
  rw [grand_total, List.filterMap_cons]
  cases resource_lookup resources hd.1 with
  | none => simp [grand_total]
  | some r => simp [grand_total]

theorem billable_grand_total_cons (hd : String × CostData) (tl : List (String × CostData))
    (resources : List ResourceInfo) :
    billable_grand_total (hd :: tl) resources =
      (match resource_lookup resources hd.1 with
       | none => 0
       | some r =>
         if is_billable_kind (determine_resource_type r) then hd.2.total_cost.getD 0 else 0) +
        billable_grand_total tl resources := by
  rw [billable_grand_total, List.filterMap_cons]
  cases resource_lookup resources hd.1 with
  | none => simp [billable_grand_total]
  | some r =>
    by_cases hb : is_billable_kind (determine_resource_type r) = true
    · simp [hb, billable_grand_total]
    · simp [hb, billable_grand_total]

theorem summary_total_cons (s : ResourceCostSummary) (l : List ResourceCostSummary) :
    summary_total (s :: l) = s.total_cost + summary_total l := by
  simp [summary_total]

theorem summary_billable_total_cons (s : ResourceCostSummary) (l : List ResourceCostSummary) :
    summary_billable_total (s :: l) =
      (if is_billable_kind s.resource_type then s.total_cost else 0) +
        summary_billable_total l := by
  by_cases hb : is_billable_kind s.resource_type = true
  · simp [summary_billable_total, List.filter_cons, hb]
  · simp [summary_billable_total, List.filter_cons, hb]

theorem summary_total_mk (cost_results : List (String × CostData))
    (resources : List ResourceInfo) (region : String) :
    summary_total (mk_resource_summaries cost_results resources region) =
      grand_total cost_results resources := by
  induction cost_results with
  | nil => rfl
  | cons hd tl ih =>
    rw [mk_resource_summaries_cons, grand_total_cons]
    cases h : resource_lookup resources hd.1 with
    | none => simpa using ih
    | some r =>
      rw [summary_total_cons, ih]
      rfl

theorem summary_billable_total_mk (cost_results : List (String × CostData))
    (resources : List ResourceInfo) (region : String) :
    summary_billable_total (mk_resource_summaries cost_results resources region) =
      billable_grand_total cost_results resources := by
  induction cost_results with
  | nil => rfl
  | cons hd tl ih =>
    rw [mk_resource_summaries_cons, billable_grand_total_cons]
    cases h : resource_lookup resources hd.1 with
    | none => simpa using ih
    | some r =>
      rw [summary_billable_total_cons, ih]
      rfl

theorem monthly_multiplier_eq (period_days : ℕ) (h : 0 < period_days) :
    monthly_multiplier period_days = 30 / (period_days : ℚ) := by
  rw [monthly_multiplier]
  split
  · rfl
  · rename_i h30
    rw [not_not] at h30
    subst h30
    norm_num

/-! ### Claim theorems -/

/-- C1 (aggregation additivity): for every call to `aggregate_costs`, the sum
of the values of the returned `cost_by_category` map equals the grand total
(the sum of `total_cost` over all cost results joined to a resource by id)
within `1e-6`, likewise for `cost_by_service`, and for `period_days = 30`
the returned `total_monthly_cost` is exactly that grand total. -/
theorem aggregate_costs_additivity (cost_results : List (String × CostData))
    (resources : List ResourceInfo) (cluster_id region : String) (period_days : ℕ) :
    |map_total (aggregate_costs cost_results resources cluster_id region period_days).cost_by_category -
        grand_total cost_results resources| ≤ 1 / 1000000 ∧
    |map_total (aggregate_costs cost_results resources cluster_id region period_days).cost_by_service -
        grand_total cost_results resources| ≤ 1 / 1000000 ∧
    (period_days = 30 →
      (aggregate_costs cost_results resources cluster_id region period_days).total_monthly_cost =
        grand_total cost_results resources) := by
  have hcat : (aggregate_costs cost_results resources cluster_id region period_days).cost_by_category =
      calculate_cost_by_category (mk_resource_summaries cost_results resources region) := rfl
  have hsvc : (aggregate_costs cost_results resources cluster_id region period_days).cost_by_service =
      calculate_cost_by_service (mk_resource_summaries cost_results resources region) := rfl
  refine ⟨?_, ?_, ?_⟩
  · rw [hcat, map_total_cost_by_category, summary_total_mk, sub_self, abs_zero]
    norm_num
  · rw [hsvc, map_total_cost_by_service, summary_total_mk, sub_self, abs_zero]
    norm_num
  · intro h30
    subst h30
    show summary_total (mk_resource_summaries cost_results resources region) *
        monthly_multiplier 30 = grand_total cost_results resources
    rw [summary_total_mk]
    norm_num [monthly_multiplier]

/-- Concrete resources used to instantiate the aggregate-level theorems. -/
def sample_resources : List ResourceInfo :=
  [{ id := "i-1", type := some "instances" },
   { id := "v-1", type := some "volumes", region := some "eu-west-1" }]

/-- Concrete cost results used to instantiate the aggregate-level theorems. -/
def sample_results : List (String × CostData) :=
  [("i-1", { total_cost := some 5, service := some "EC2-Instance" }),
   ("v-1", { total_cost := some 3, service := some "EBS-Volume" })]

theorem aggregate_costs_additivity_witness :
    |map_total (aggregate_costs sample_results sample_resources "c" "us-east-1" 30).cost_by_category -
        grand_total sample_results sample_resources| ≤ 1 / 1000000 ∧
    |map_total (aggregate_costs sample_results sample_resources "c" "us-east-1" 30).cost_by_service -
        grand_total sample_results sample_resources| ≤ 1 / 1000000 ∧
    (aggregate_costs sample_results sample_resources "c" "us-east-1" 30).total_monthly_cost =
      grand_total sample_results sample_resources :=
  ⟨(aggregate_costs_additivity sample_results sample_resources "c" "us-east-1" 30).1,
   (aggregate_costs_additivity sample_results sample_resources "c" "us-east-1" 30).2.1,
   (aggregate_costs_additivity sample_results sample_resources "c" "us-east-1" 30).2.2 rfl⟩

/-- C2 (monthly scaling asymmetry): `total_monthly_cost` and
`total_billable_cost` are the raw period totals scaled by `30/period_days`
(so the factor is `1` at 30 days and `30/7` at 7 days), while all four
breakdown maps still sum to the un-scaled raw-period grand total. -/
theorem aggregate_costs_monthly_scaling (cost_results : List (String × CostData))
    (resources : List ResourceInfo) (cluster_id region : String) (period_days : ℕ)
    (h : 0 < period_days) :
    (aggregate_costs cost_results resources cluster_id region period_days).total_monthly_cost =
      grand_total cost_results resources * (30 / (period_days : ℚ)) ∧
    (aggregate_costs cost_results resources cluster_id region period_days).total_billable_cost =
      billable_grand_total cost_results resources * (30 / (period_days : ℚ)) ∧
    map_total (aggregate_costs cost_results resources cluster_id region period_days).cost_by_category =
      grand_total cost_results resources ∧
    map_total (aggregate_costs cost_results resources cluster_id region period_days).cost_by_service =
      grand_total cost_results resources ∧
    map_total (aggregate_costs cost_results resources cluster_id region period_days).cost_by_priority =
      grand_total cost_results resources ∧
    map_total (aggregate_costs cost_results resources cluster_id region period_days).cost_by_region =
      grand_total cost_results resources := by
  refine ⟨?_, ?_, ?_, ?_, ?_, ?_⟩
  · show summary_total (mk_resource_summaries cost_results resources region) *
        monthly_multiplier period_days = _
    rw [monthly_multiplier_eq period_days h, summary_total_mk]
  · show summary_billable_total (mk_resource_summaries cost_results resources region) *
        monthly_multiplier period_days = _
    rw [monthly_multiplier_eq period_days h, summary_billable_total_mk]
  · show map_total (calculate_cost_by_category (mk_resource_summaries cost_results resources region)) = _
    rw [map_total_cost_by_category, summary_total_mk]
  · show map_total (calculate_cost_by_service (mk_resource_summaries cost_results resources region)) = _
    rw [map_total_cost_by_service, summary_total_mk]
  · show map_total (calculate_cost_by_priority (mk_resource_summaries cost_results resources region)) = _
    rw [map_total_cost_by_priority, summary_total_mk]
  · show map_total (calculate_cost_by_region (mk_resource_summaries cost_results resources region)) = _
    rw [map_total_cost_by_region, summary_total_mk]

theorem aggregate_costs_monthly_scaling_witness :
    (0 : ℕ) < 7 ∧
    (aggregate_costs sample_results sample_resources "c" "us-east-1" 7).total_monthly_cost =
      grand_total sample_results sample_resources * (30 / ((7 : ℕ) : ℚ)) ∧
    map_total (aggregate_costs sample_results sample_resources "c" "us-east-1" 7).cost_by_region =
      grand_total sample_results sample_resources :=
  ⟨by norm_num,
   (aggregate_costs_monthly_scaling sample_results sample_resources "c" "us-east-1" 7 (by norm_num)).1,
   (aggregate_costs_monthly_scaling sample_results sample_resources "c" "us-east-1" 7 (by norm_num)).2.2.2.2.2⟩

theorem retry_loop_cons_retriable (cost_calc : ℕ → Except String CalcResult)
    (max_retries : ℕ) (last_exc : Option String) (e : String) (attempt : ℕ)
    (rest : List ℕ) (he : cost_calc attempt = Except.error e)
    (hr : is_retriable_error e = true) (hlt : attempt < max_retries) :
    retry_loop cost_calc max_retries last_exc (attempt :: rest) =
      ((retry_loop cost_calc max_retries (some e) rest).1 + 1,
       (retry_loop cost_calc max_retries (some e) rest).2) := by
  simp [retry_loop, he, hr, hlt]

theorem retry_loop_all_retriable (cost_calc : ℕ → Except String CalcResult) (max_retries : ℕ) :
    ∀ (n k : ℕ) (last_exc : Option String), k + n = max_retries →
      (∀ i, k ≤ i → i ≤ max_retries →
        ∃ e, cost_calc i = Except.error e ∧ is_retriable_error e = true) →
      ∃ e, cost_calc max_retries = Except.error e ∧
        retry_loop cost_calc max_retries last_exc (range_from k (n + 1)) =
          (n + 1, get_batch_fallback_cost_data max_retries e)
  | 0, k, last_exc, hk, h => by
    obtain ⟨e, he, hr⟩ := h k le_rfl (by omega)
    have hkm : k = max_retries := by omega
    subst hkm
    exact ⟨e, he, by simp [range_from, retry_loop, he, hr]⟩
  | n + 1, k, last_exc, hk, h => by
    obtain ⟨e0, he0, hr0⟩ := h k le_rfl (by omega)
    obtain ⟨e, he, hloop⟩ := retry_loop_all_retriable cost_calc max_retries n (k + 1) (some e0)
      (by omega) (fun i h1 h2 => h i (by omega) h2)
    refine ⟨e, he, ?_⟩
    rw [range_from,
      retry_loop_cons_retriable cost_calc max_retries last_exc e0 k _ he0 hr0 (by omega), hloop]

/-- C3 (retry ceiling): if the underlying cost calculation fails with a
retriable-classified error on every attempt, `calculate_resource_cost_with_retry`
invokes it exactly `max_retries + 1` times and returns — without raising — the
batch-fallback result with `calculation_failed = true`, `total_cost = 0` and
`is_estimated = true`. -/
theorem retry_ceiling (cost_calc : ℕ → Except String CalcResult) (max_retries : ℕ)
    (h : ∀ i, i ≤ max_retries →
      ∃ e, cost_calc i = Except.error e ∧ is_retriable_error e = true) :
    (calculate_resource_cost_with_retry cost_calc max_retries).1 = max_retries + 1 ∧
    (calculate_resource_cost_with_retry cost_calc max_retries).2.calculation_failed = true ∧
    (calculate_resource_cost_with_retry cost_calc max_retries).2.total_cost = 0 ∧
    (calculate_resource_cost_with_retry cost_calc max_retries).2.is_estimated = true := by
  obtain ⟨e, _, hloop⟩ := retry_loop_all_retriable cost_calc max_retries max_retries 0 none
    (by omega) (fun i _ h2 => h i h2)
  rw [calculate_resource_cost_with_retry, hloop]
  exact ⟨rfl, rfl, rfl, rfl⟩

theorem retry_ceiling_witness :
    (calculate_resource_cost_with_retry (fun _ => Except.error "connection timeout") 3).1 = 3 + 1 ∧
    (calculate_resource_cost_with_retry (fun _ => Except.error "connection timeout") 3).2.calculation_failed = true ∧
    (calculate_resource_cost_with_retry (fun _ => Except.error "connection timeout") 3).2.total_cost = 0 ∧
    (calculate_resource_cost_with_retry (fun _ => Except.error "connection timeout") 3).2.is_estimated = true :=
  retry_ceiling (fun _ => Except.error "connection timeout") 3
    (fun _ _ => ⟨"connection timeout", rfl, by decide⟩)

theorem lead_match_map (f : Char → Char) :
    ∀ ps cs, lead_match ps cs = true → lead_match (ps.map f) (cs.map f) = true
  | [], _, _ => rfl
  | _ :: _, [], h => by simp [lead_match] at h
  | p :: ps, c :: cs, h => by
    rw [lead_match, Bool.and_eq_true] at h
    obtain ⟨h1, h2⟩ := h
    have hpc : p = c := by simpa using h1
    subst hpc
    simp [lead_match, lead_match_map f ps cs h2]

theorem sub_match_map (f : Char → Char) :
    ∀ pat cs, sub_match pat cs = true → sub_match (pat.map f) (cs.map f) = true
  | pat, [], h => by
    cases pat with
    | nil => rfl
    | cons p ps => simp [sub_match, lead_match] at h
  | pat, c :: cs, h => by
    rw [sub_match, Bool.or_eq_true] at h
    rw [List.map_cons, sub_match, Bool.or_eq_true]
    cases h with
    | inl h1 => exact Or.inl (by simpa [List.map_cons] using lead_match_map f pat (c :: cs) h1)
    | inr h2 => exact Or.inr (sub_match_map f pat cs h2)

theorem str_contains_lower (s pat : String) (hfix : pat.data.map Char.toLower = pat.data)
    (h : str_contains s pat = true) : str_contains (str_lower s) pat = true := by
  rw [str_contains, str_lower] at *
  show sub_match pat.data (s.data.map Char.toLower) = true
  rw [← hfix]
  exact sub_match_map Char.toLower pat.data s.data h

theorem non_retriable_of_contains (e ind : String) (hmem : ind ∈ non_retriable_indicators)
    (hfix : ind.data.map Char.toLower = ind.data) (h : str_contains e ind = true) :
    is_retriable_error e = false := by
  rw [is_retriable_error]
  have hany : non_retriable_indicators.any (fun i => str_contains (str_lower e) i) = true :=
    List.any_eq_true.2 ⟨ind, hmem, str_contains_lower e ind hfix h⟩
  simp [hany]

theorem one_attempt_of_non_retriable (cost_calc : ℕ → Except String CalcResult)
    (max_retries : ℕ) (e : String) (hc : cost_calc 0 = Except.error e)
    (hr : is_retriable_error e = false) :
    calculate_resource_cost_with_retry cost_calc max_retries =
      (1, get_batch_fallback_cost_data max_retries e) := by
  rw [calculate_resource_cost_with_retry,
    show range_from 0 (max_retries + 1) = 0 :: range_from 1 max_retries from rfl]
  simp [retry_loop, hc, hr]

/-- C4 (no retry on terminal error): if the underlying calculation raises an
error whose text contains `"access denied"`, the retry wrapper makes exactly
one attempt and returns the fallback result with `calculation_failed = true`
instead of raising. -/
theorem no_retry_on_access_denied (cost_calc : ℕ → Except String CalcResult)
    (max_retries : ℕ) (e : String) (hc : cost_calc 0 = Except.error e)
    (h : str_contains e "access denied" = true) :
    calculate_resource_cost_with_retry cost_calc max_retries =
      (1, get_batch_fallback_cost_data max_retries e) ∧
    (get_batch_fallback_cost_data max_retries e).calculation_failed = true ∧
    (get_batch_fallback_cost_data max_retries e).total_cost = 0 := by
  have hr := non_retriable_of_contains e "access denied" (by decide) (by decide) h
  exact ⟨one_attempt_of_non_retriable cost_calc max_retries e hc hr, rfl, rfl⟩

theorem no_retry_on_access_denied_witness :
    str_contains "Error: access denied for user" "access denied" = true ∧
    calculate_resource_cost_with_retry (fun _ => Except.error "Error: access denied for user") 3 =
      (1, get_batch_fallback_cost_data 3 "Error: access denied for user") :=
  ⟨by decide,
   (no_retry_on_access_denied (fun _ => Except.error "Error: access denied for user") 3
      "Error: access denied for user" rfl (by decide)).1⟩

/-- C10 (terminal-indicator precedence): an error text containing any
non-retriable indicator is classified non-retriable — even if it also
contains a retriable indicator, since the non-retriable list is checked
first — and such an error causes exactly one attempt. -/
theorem terminal_indicator_precedence (e : String)
    (h : ∃ ind ∈ non_retriable_indicators, str_contains e ind = true) :
    is_retriable_error e = false ∧
    ∀ (cost_calc : ℕ → Except String CalcResult) (max_retries : ℕ),
      cost_calc 0 = Except.error e →
      (calculate_resource_cost_with_retry cost_calc max_retries).1 = 1 := by
  obtain ⟨ind, hmem, hcon⟩ := h
  have hfix : ind.data.map Char.toLower = ind.data := by
    rw [non_retriable_indicators] at hmem
    simp only [List.mem_cons, List.not_mem_nil, or_false] at hmem
    rcases hmem with rfl | rfl | rfl | rfl | rfl <;> decide
  have hr := non_retriable_of_contains e ind hmem hfix hcon
  refine ⟨hr, fun cost_calc max_retries hc => ?_⟩
  rw [one_attempt_of_non_retriable cost_calc max_retries e hc hr]

theorem terminal_indicator_precedence_witness :
    str_contains "timeout: access denied" "timeout" = true ∧
    is_retriable_error "timeout: access denied" = false ∧
    (calculate_resource_cost_with_retry (fun _ => Except.error "timeout: access denied") 3).1 = 1 :=
  ⟨by decide,
   (terminal_indicator_precedence "timeout: access denied"
      ⟨"access denied", by decide, by decide⟩).1,
   (terminal_indicator_precedence "timeout: access denied"
      ⟨"access denied", by decide, by decide⟩).2 (fun _ => Except.error "timeout: access denied") 3 rfl⟩

theorem info_nonempty_of_get (info : List (String × MetaVal)) (key s : String)
    (h : info_get_str info key = some s) : info.isEmpty = false := by
  cases info with
  | nil => simp [info_get_str, List.lookup] at h
  | cons hd tl => rfl

theorem calculate_resource_cost_instances (rates : PricingRates) (r : ResourceInfo)
    (region : String) (days : ℕ)
    (hcat : info_get_str r.additional_info "resource_category" = some "instances") :
    calculate_resource_cost rates r region days =
      calculate_ec2_instance_cost rates r region days := by
  have hne := info_nonempty_of_get _ _ _ hcat
  simp [calculate_resource_cost, hne, hcat, truthy_str]

/-- C5 (conservative default for unspecified instances): a compute-instance
resource whose type string is the generic `"instance"` and whose metadata has
no `instance_type` is priced with the conservative mid-tier `t3.medium`
default — not the cheapest `t3.micro` tier — and flagged `is_estimated = true`;
when a specific `instance_type` is present, that type is used and
`is_estimated = false`. -/
theorem ec2_generic_instance_conservative_default (rates : PricingRates)
    (r : ResourceInfo) (region : String) (days : ℕ)
    (hcat : info_get_str r.additional_info "resource_category" = some "instances")
    (htype : r.type = some "instance") :
    (info_get_str r.additional_info "instance_type" = none →
      (calculate_resource_cost rates r region days).actual_instance_type = some "t3.medium" ∧
      (calculate_resource_cost rates r region days).actual_instance_type ≠ some "t3.micro" ∧
      (calculate_resource_cost rates r region days).is_estimated = true ∧
      (calculate_resource_cost rates r region days).total_cost =
        rates.ec2_hourly "t3.medium" region * ((days : ℚ) * 24)) ∧
    (∀ t, info_get_str r.additional_info "instance_type" = some t → t ≠ "" →
      (calculate_resource_cost rates r region days).actual_instance_type = some t ∧
      (calculate_resource_cost rates r region days).is_estimated = false ∧
      (calculate_resource_cost rates r region days).total_cost =
        rates.ec2_hourly t region * ((days : ℚ) * 24)) := by
  have hne := info_nonempty_of_get _ _ _ hcat
  rw [calculate_resource_cost_instances rates r region days hcat]
  constructor
  · intro hno
    simp [calculate_ec2_instance_cost, htype, hno, hne, py_or, truthy_str]
  · intro t ht htne
    simp [calculate_ec2_instance_cost, htype, ht, hne, py_or, truthy_str, htne]

/-- Constant rate oracle used to instantiate the pricing theorems. -/
def sample_rates : PricingRates :=
  { ec2_hourly := fun _ _ => 2
    ebs_monthly_per_gb := fun _ _ => 1 / 10
    elb_hourly := fun _ _ => 0
    nat_hourly := fun _ => 0
    nat_data := fun _ => 0
    eip_hourly := fun _ => 0
    vpce_hourly := fun _ _ => 0
    vpce_data := fun _ _ => 0
    s3_monthly_per_gb := fun _ _ => 0
    s3_request_per_thousand := fun _ _ => 0 }

/-- Generic-instance resource with no specific type in its metadata. -/
def gen_instance_resource : ResourceInfo :=
  { id := "i-1", type := some "instance",
    additional_info := [("resource_category", MetaVal.str "instances")] }

/-- Instance resource carrying a specific `instance_type` in its metadata. -/
def spec_instance_resource : ResourceInfo :=
  { id := "i-2", type := some "instance",
    additional_info := [("resource_category", MetaVal.str "instances"),
      ("instance_type", MetaVal.str "m5.large")] }

theorem ec2_generic_instance_conservative_default_witness :
    (calculate_resource_cost sample_rates gen_instance_resource "us-east-1" 30).actual_instance_type =
      some "t3.medium" ∧
    (calculate_resource_cost sample_rates gen_instance_resource "us-east-1" 30).is_estimated = true ∧
    (calculate_resource_cost sample_rates spec_instance_resource "us-east-1" 30).actual_instance_type =
      some "m5.large" ∧
    (calculate_resource_cost sample_rates spec_instance_resource "us-east-1" 30).is_estimated = false :=
  ⟨((ec2_generic_instance_conservative_default sample_rates gen_instance_resource
      "us-east-1" 30 rfl rfl).1 rfl).1,
   ((ec2_generic_instance_conservative_default sample_rates gen_instance_resource
      "us-east-1" 30 rfl rfl).1 rfl).2.2.1,
   ((ec2_generic_instance_conservative_default sample_rates spec_instance_resource
      "us-east-1" 30 rfl rfl).2 "m5.large" rfl (by decide)).1,
   ((ec2_generic_instance_conservative_default sample_rates spec_instance_resource
      "us-east-1" 30 rfl rfl).2 "m5.large" rfl (by decide)).2.1⟩

/-- C6 (code bug): an EBS-volume resource whose metadata omits `size_gb` is
priced with the documented 20 GB default
(`cost = rate_per_gb x 20 x days/30`, here `(1/10) x 20 x 30/30 = 2`), but
the result carries `is_estimated = false` — the source hardcodes
`'is_estimated': False` in `_calculate_ebs_volume_cost`, contradicting the
spec's requirement that a defaulted size set `is_estimated = true`. -/
theorem ebs_default_size_not_flagged :
    (calculate_resource_cost sample_rates
      { id := "vol-1", type := some "volume",
        additional_info := [("resource_category", MetaVal.str "volumes")] }
      "us-east-1" 30).total_cost = 2 ∧
    (calculate_resource_cost sample_rates
      { id := "vol-1", type := some "volume",
        additional_info := [("resource_category", MetaVal.str "volumes")] }
      "us-east-1" 30).size_gb = some 20 ∧
    (calculate_resource_cost sample_rates
      { id := "vol-1", type := some "volume",
        additional_info := [("resource_category", MetaVal.str "volumes")] }
      "us-east-1" 30).is_estimated = false := by
  refine ⟨?_, rfl, rfl⟩
  have h : (calculate_resource_cost sample_rates
      { id := "vol-1", type := some "volume",
        additional_info := [("resource_category", MetaVal.str "volumes")] }
      "us-east-1" 30).total_cost = (1 / 10 : ℚ) * 20 * (((30 : ℕ) : ℚ) / 30) := rfl
  rw [h]
  push_cast
  norm_num

/-- Four same-region resources priced 100, 25, 5 and 0 (the spec's filter
example), used against the post-hoc threshold filter. -/
def c7_resources : List ResourceInfo :=
  [{ id := "p1", type := some "instances", region := some "us-east-1" },
   { id := "p2", type := some "instances", region := some "us-east-1" },
   { id := "p3", type := some "instances", region := some "us-east-1" },
   { id := "p4", type := some "instances", region := some "us-east-1" }]

/-- Cost results for `c7_resources`. -/
def c7_results : List (String × CostData) :=
  [("p1", { total_cost := some 100 }), ("p2", { total_cost := some 25 }),
   ("p3", { total_cost := some 5 }), ("p4", { total_cost := some 0 })]

/-- The aggregated summary for the filter example. -/
def c7_summary : ComprehensiveCostSummary :=
  aggregate_costs c7_results c7_resources "cluster" "us-east-1" 30

/-- A `cost >= 50` threshold filter. -/
def c7_args : FilterArgs := { cost_threshold := some 50 }

/-- C7 counterexample: filtering the {100, 25, 5, 0} summary at threshold 50
does yield one resource with a recomputed total of 100, but the by-region
breakdown map of the filtered summary is NOT recomputed from the filtered
subset — it keeps the original 130 total — so the claim that all breakdown
maps are recomputed is false. -/
theorem filter_keeps_region_breakdown_counterexample :
    (apply_cost_filters_and_sorting c7_summary c7_args).total_resources = 1 ∧
    (apply_cost_filters_and_sorting c7_summary c7_args).total_monthly_cost = 100 ∧
    (apply_cost_filters_and_sorting c7_summary c7_args).cost_by_region = [("us-east-1", 130)] ∧
    calculate_cost_by_region (apply_cost_filters_and_sorting c7_summary c7_args).resource_summaries =
      [("us-east-1", 100)] ∧
    ¬ ((apply_cost_filters_and_sorting c7_summary c7_args).cost_by_region =
        calculate_cost_by_region
          (apply_cost_filters_and_sorting c7_summary c7_args).resource_summaries) := by
  have h1 : (apply_cost_filters_and_sorting c7_summary c7_args).cost_by_region =
      [("us-east-1", ((100 : ℚ) + 25 + 5 + 0))] := rfl
  have h2 : calculate_cost_by_region
      (apply_cost_filters_and_sorting c7_summary c7_args).resource_summaries =
      [("us-east-1", (100 : ℚ))] := rfl
  have hm : (apply_cost_filters_and_sorting c7_summary c7_args).total_monthly_cost =
      ([(100 : ℚ)]).sum := rfl
  refine ⟨rfl, ?_, ?_, h2, ?_⟩
  · rw [hm]
    simp
  · rw [h1]
    norm_num
  · rw [h1, h2]
    intro hcon
    simp only [List.cons.injEq, Prod.mk.injEq] at hcon
    obtain ⟨⟨-, hval⟩, -⟩ := hcon
    norm_num at hval

/-- C7 amended: when the filtered list differs in length from the original,
the filter produces a new summary whose totals, billable/free counts and
category/service/priority breakdown maps are recomputed from the filtered
subset (each breakdown again sums to the recomputed total), while the
by-region map, the distribution analysis and the optimization potential
retain the original summary's values. -/
theorem apply_cost_filters_recomputes (summary : ComprehensiveCostSummary)
    (args : FilterArgs)
    (h : (filter_resources summary args).length ≠ summary.resource_summaries.length) :
    (apply_cost_filters_and_sorting summary args).resource_summaries =
      filter_resources summary args ∧
    (apply_cost_filters_and_sorting summary args).total_monthly_cost =
      summary_total (filter_resources summary args) ∧
    (apply_cost_filters_and_sorting summary args).total_resources =
      (filter_resources summary args).length ∧
    (apply_cost_filters_and_sorting summary args).billable_resources =
      ((filter_resources summary args).filter (fun r => (0 : ℚ) < r.total_cost)).length ∧
    (apply_cost_filters_and_sorting summary args).free_resources =
      (filter_resources summary args).length -
        ((filter_resources summary args).filter (fun r => (0 : ℚ) < r.total_cost)).length ∧
    map_total (apply_cost_filters_and_sorting summary args).cost_by_category =
      (apply_cost_filters_and_sorting summary args).total_monthly_cost ∧
    map_total (apply_cost_filters_and_sorting summary args).cost_by_service =
      (apply_cost_filters_and_sorting summary args).total_monthly_cost ∧
    map_total (apply_cost_filters_and_sorting summary args).cost_by_priority =
      (apply_cost_filters_and_sorting summary args).total_monthly_cost ∧
    (apply_cost_filters_and_sorting summary args).cost_by_region = summary.cost_by_region ∧
    (apply_cost_filters_and_sorting summary args).cost_distribution_analysis =
      summary.cost_distribution_analysis ∧
    (apply_cost_filters_and_sorting summary args).optimization_potential =
      summary.optimization_potential := by
  simp only [apply_cost_filters_and_sorting]
  rw [if_pos h]
  refine ⟨rfl, rfl, rfl, rfl, rfl, ?_, ?_, ?_, rfl, rfl, rfl⟩
  · rw [map_total_cost_by_category]
    rfl
  · rw [map_total_cost_by_service]
    rfl
  · rw [map_total_cost_by_priority]
    rfl

theorem apply_cost_filters_recomputes_witness :
    (filter_resources c7_summary c7_args).length ≠ c7_summary.resource_summaries.length ∧
    (apply_cost_filters_and_sorting c7_summary c7_args).resource_summaries =
      filter_resources c7_summary c7_args ∧
    (apply_cost_filters_and_sorting c7_summary c7_args).total_monthly_cost =
      summary_total (filter_resources c7_summary c7_args) ∧
    (apply_cost_filters_and_sorting c7_summary c7_args).cost_by_region =
      c7_summary.cost_by_region :=
  ⟨by decide,
   (apply_cost_filters_recomputes c7_summary c7_args (by decide)).1,
   (apply_cost_filters_recomputes c7_summary c7_args (by decide)).2.1,
   (apply_cost_filters_recomputes c7_summary c7_args (by decide)).2.2.2.2.2.2.2.2.1⟩

/-- C8 counterexample: a resource with an absent region aggregated under the
call region `"us-east-1"` is bucketed under `"us-east-1"`, and the by-region
map has no `"Unknown"` key at all. -/
theorem missing_region_bucket_counterexample :
    (aggregate_costs [("r1", { total_cost := some 5 })]
      [{ id := "r1", type := some "instances" }] "c" "us-east-1" 30).cost_by_region =
      [("us-east-1", 5)] ∧
    List.lookup "Unknown"
      (aggregate_costs [("r1", { total_cost := some 5 })]
        [{ id := "r1", type := some "instances" }] "c" "us-east-1" 30).cost_by_region = none :=
  ⟨rfl, rfl⟩

/-- C8 amended: a resource whose region is absent (`None` or empty) is
bucketed under the aggregation call's `region` argument; the literal
`"Unknown"` bucket is used only when that argument is itself empty. -/
theorem missing_region_uses_call_region (r : ResourceInfo) (cd : CostData)
    (cluster_id region : String) (period_days : ℕ)
    (h : r.region = none ∨ r.region = some "") :
    (aggregate_costs [(r.id, cd)] [r] cluster_id region period_days).cost_by_region =
      [(str_or region "Unknown", cd.total_cost.getD 0)] := by
  have hlook : resource_lookup [r] r.id = some r := by
    simp [resource_lookup]
  have hsum : mk_resource_summaries [(r.id, cd)] [r] region = [mk_summary r cd region] := by
    rw [mk_resource_summaries_cons]
    simp [hlook, mk_resource_summaries]
  have hreg : (mk_summary r cd region).region = region := by
    rcases h with h | h <;> simp [mk_summary, py_or, h]
  have hcost : (mk_summary r cd region).total_cost = cd.total_cost.getD 0 := rfl
  show calculate_cost_by_region (mk_resource_summaries [(r.id, cd)] [r] region) = _
  rw [hsum]
  simp [calculate_cost_by_region, bump_key, hreg, hcost]

theorem missing_region_uses_call_region_witness :
    (aggregate_costs [("x1", { total_cost := some 7 })]
      [{ id := "x1" }] "c" "eu-west-1" 30).cost_by_region = [("eu-west-1", 7)] :=
  missing_region_uses_call_region { id := "x1" } { total_cost := some 7 } "c" "eu-west-1" 30
    (Or.inl rfl)

/-- A standalone resource cost summary used for concrete distribution checks. -/
def sample_summary (rid : String) (c : ℚ) : ResourceCostSummary :=
  { resource_id := rid
    resource_name := none
    resource_type := some "instances"
    service := "EC2-Instance"
    region := "us-east-1"
    cost_category := CostCategory.BILLABLE_COMPUTE
    cost_priority := CostPriority.HIGH
    total_cost := c
    service_breakdown := [("EC2-Instance", c)]
    is_estimated := false
    pricing_source := "AWS Pricing API"
    additional_details :=
      { hourly_rate := none, monthly_rate_per_gb := none, data_processing_rate := none,
        estimated_gb_processed := none, estimated_gb_stored := none,
        calculation_failed := false } }

/-- C9 counterexample: for the two-element cost list {1, 2} the reported
median is `2` — the element at index `len // 2 = 1` of the ascending sort,
i.e. the UPPER of the two middle elements — not the lower middle `1` that
the claim states. -/
theorem median_even_takes_upper_middle_counterexample :
    (analyze_cost_distribution [sample_summary "a" 1, sample_summary "b" 2]).map
        (fun d => d.median_cost) = some 2 ∧
    (2 : ℚ) ≠ 1 := by
  constructor
  · rfl
  · norm_num

theorem sorted_nth_counts :
    ∀ (l : List ℚ), l.Sorted (fun a b => a ≤ b) →
      ∀ (i : ℕ) (hi : i < l.length),
        i + 1 ≤ l.countP (fun x => decide (x ≤ l.get ⟨i, hi⟩)) ∧
        l.length - i ≤ l.countP (fun x => decide (l.get ⟨i, hi⟩ ≤ x))
  | [], _, i, hi => by simp at hi
  | a :: t, hs, i, hi => by
    rw [List.sorted_cons] at hs
    obtain ⟨ha, ht⟩ := hs
    cases i with
    | zero =>
      have hget : (a :: t).get ⟨0, hi⟩ = a := rfl
      rw [hget]
      constructor
      · rw [List.countP_cons]
        have hpa : decide ((a : ℚ) ≤ a) = true := by simp
        rw [hpa, if_pos rfl]
        omega
      · have hall : ∀ x ∈ a :: t, decide ((a : ℚ) ≤ x) = true := by
          intro x hx
          rcases List.mem_cons.1 hx with rfl | hx
          · simp
          · simpa using ha x hx
        rw [List.countP_eq_length.2 hall]
        omega
    | succ j =>
      have hj : j < t.length := by
        have := hi
        simp only [List.length_cons] at this
        omega
      have hget : (a :: t).get ⟨j + 1, hi⟩ = t.get ⟨j, hj⟩ := rfl
      rw [hget]
      obtain ⟨ih1, ih2⟩ := sorted_nth_counts t ht j hj
      constructor
      · rw [List.countP_cons]
        have hmem := List.get_mem t j hj
        have hale : decide ((a : ℚ) ≤ t.get ⟨j, hj⟩) = true := by
          simpa using ha _ hmem
        rw [hale, if_pos rfl]
        omega
      · rw [List.countP_cons, List.length_cons]
        split <;> omega

/-- C9 amended: for a non-empty summary list the reported `median_cost` is
the element at index `⌊n/2⌋` of the ascending-sorted cost list — the middle
element for odd `n`, but the UPPER (not the lower) of the two middle elements
for even `n`. Stated as an order statistic: the median is one of the costs,
at least `⌊n/2⌋ + 1` costs are `≤` it and at least `n - ⌊n/2⌋` costs are
`≥` it. -/
theorem median_upper_middle (summaries : List ResourceCostSummary)
    (h : summaries ≠ []) :
    ∃ d, analyze_cost_distribution summaries = some d ∧
      d.median_cost ∈ summaries.map (fun s => s.total_cost) ∧
      (summaries.map (fun s => s.total_cost)).length / 2 + 1 ≤
        (summaries.map (fun s => s.total_cost)).countP
          (fun x => decide (x ≤ d.median_cost)) ∧
      (summaries.map (fun s => s.total_cost)).length -
          (summaries.map (fun s => s.total_cost)).length / 2 ≤
        (summaries.map (fun s => s.total_cost)).countP
          (fun x => decide (d.median_cost ≤ x)) := by
  have hne : summaries.isEmpty = false := List.isEmpty_eq_false.2 h
  have hslen : 0 < summaries.length := List.length_pos.2 h
  have hclen : 0 < (summaries.map (fun s => s.total_cost)).length := by
    simpa using hslen
  have hperm : ((summaries.map (fun s => s.total_cost)).insertionSort
      (fun a b => a ≤ b)).Perm (summaries.map (fun s => s.total_cost)) :=
    List.perm_insertionSort _ _
  have hsort : ((summaries.map (fun s => s.total_cost)).insertionSort
      (fun a b => a ≤ b)).Sorted (fun a b => a ≤ b) :=
    List.sorted_insertionSort _ _
  have hlen : ((summaries.map (fun s => s.total_cost)).insertionSort
      (fun a b => a ≤ b)).length = (summaries.map (fun s => s.total_cost)).length :=
    hperm.length_eq
  have hi : (summaries.map (fun s => s.total_cost)).length / 2 <
      ((summaries.map (fun s => s.total_cost)).insertionSort (fun a b => a ≤ b)).length := by
    rw [hlen]
    exact Nat.div_lt_self hclen (by norm_num)
  cases hd : analyze_cost_distribution summaries with
  | none =>
    rw [analyze_cost_distribution] at hd
    simp [hne] at hd
  | some d =>
    have hmed : d.median_cost =
        ((summaries.map (fun s => s.total_cost)).insertionSort (fun a b => a ≤ b)).get
          ⟨(summaries.map (fun s => s.total_cost)).length / 2, hi⟩ := by
      rw [analyze_cost_distribution] at hd
      simp only [hne, Bool.false_eq_true, if_false, Option.some.injEq] at hd
      rw [← hd]
      show ((summaries.map (fun s => s.total_cost)).insertionSort (fun a b => a ≤ b)).getD
          ((summaries.map (fun s => s.total_cost)).length / 2) 0 = _
      rw [List.getD_eq_getElem _ 0 hi]
      simp [List.get_eq_getElem]
    obtain ⟨hc1, hc2⟩ := sorted_nth_counts _ hsort
      ((summaries.map (fun s => s.total_cost)).length / 2) hi
    rw [hperm.countP_eq] at hc1 hc2
    refine ⟨d, rfl, ?_, ?_, ?_⟩
    · simp only [hmed]
      exact hperm.mem_iff.1 (List.get_mem _ _ _)
    · simp only [hmed]
      exact hc1
    · simp only [hmed]
      omega

theorem median_upper_middle_witness :
    ([sample_summary "a" 1, sample_summary "b" 2] : List ResourceCostSummary) ≠ [] ∧
    ∃ d, analyze_cost_distribution [sample_summary "a" 1, sample_summary "b" 2] = some d ∧
      d.median_cost ∈ [sample_summary "a" 1, sample_summary "b" 2].map (fun s => s.total_cost) ∧
      ([sample_summary "a" 1, sample_summary "b" 2].map (fun s => s.total_cost)).length / 2 + 1 ≤
        ([sample_summary "a" 1, sample_summary "b" 2].map (fun s => s.total_cost)).countP
          (fun x => decide (x ≤ d.median_cost)) ∧
      ([sample_summary "a" 1, sample_summary "b" 2].map (fun s => s.total_cost)).length -
          ([sample_summary "a" 1, sample_summary "b" 2].map (fun s => s.total_cost)).length / 2 ≤
        ([sample_summary "a" 1, sample_summary "b" 2].map (fun s => s.total_cost)).countP
          (fun x => decide (d.median_cost ≤ x)) :=
  ⟨by simp, median_upper_middle [sample_summary "a" 1, sample_summary "b" 2] (by simp)⟩
